import Mathlib

/-!
Verification of the Unix TTY backend of the serial-rs repository.

The development shallowly embeds the relevant Rust sources:
  - `src/serial-unix/src/termios2.rs` (extended Linux backend: the
    `termios2` control block, `get_speed`, `set_speed`),
  - `src/serial-unix/src/tty.rs` (the `TTYSettings` getters/setters and
    `TTYPort::open`/`Drop`),
  - `src/serial-unix/src/poll.rs` (`wait_fd` readiness classification),
  - `src/serial-unix/src/error.rs` (`from_raw_os_error`).

Machine integers (`tcflag_t`, `speed_t`, both `u32` on the modelled
Linux/x86_64 target) are represented as `Nat`; the Rust bitwise
complement `!m` on `u32` is written `4294967295 ^^^ m`, and the Rust
`as u32` cast is written `% 4294967296`.  `usize` (64-bit on the
modelled target) is represented as an unrestricted `Nat`.  Numeric
constants are the Linux/x86_64 values of the corresponding `libc`
symbols.
-/

namespace Serial

/-! Section: Linux `libc` constants (x86_64) -/

def B0 : Nat := 0
def B50 : Nat := 1
def B75 : Nat := 2
def B110 : Nat := 3
def B134 : Nat := 4
def B150 : Nat := 5
def B200 : Nat := 6
def B300 : Nat := 7
def B600 : Nat := 8
def B1200 : Nat := 9
def B1800 : Nat := 10
def B2400 : Nat := 11
def B4800 : Nat := 12
def B9600 : Nat := 13
def B19200 : Nat := 14
def B38400 : Nat := 15
def B57600 : Nat := 4097
def B115200 : Nat := 4098
def B230400 : Nat := 4099
def B460800 : Nat := 4100
def B500000 : Nat := 4101
def B576000 : Nat := 4102
def B921600 : Nat := 4103
def B1000000 : Nat := 4104
def B1152000 : Nat := 4105
def B1500000 : Nat := 4106
def B2000000 : Nat := 4107
def B2500000 : Nat := 4108
def B3000000 : Nat := 4109
def B3500000 : Nat := 4110
def B4000000 : Nat := 4111

def CBAUD : Nat := 4111

def CSIZE : Nat := 48
def CS5 : Nat := 0
def CS6 : Nat := 16
def CS7 : Nat := 32
def CS8 : Nat := 48
def CSTOPB : Nat := 64
def CREAD : Nat := 128
def PARENB : Nat := 256
def PARODD : Nat := 512
def CLOCAL : Nat := 2048
def CRTSCTS : Nat := 2147483648

def IGNPAR : Nat := 4
def INPCK : Nat := 16
def IXON : Nat := 1024
def IXOFF : Nat := 4096

/-- `termios2.rs` constant: shift of the input-speed copy of the baud
sub-field. -/
def IBSHIFT : Nat := 16

/-- `termios2.rs` constant: the "rate is carried out-of-band" sentinel. -/
def BOTHER : Nat := 4096

/-- Rust bitwise complement on a `u32` flag word. -/
def complement32 (m : Nat) : Nat := 4294967295 ^^^ m

/-! Section: Errno constants (Linux) -/

def EBUSY : Int := 16
def EISDIR : Int := 21
def ELOOP : Int := 40
def ENOTDIR : Int := 20
def ENOENT : Int := 2
def ENODEV : Int := 19
def ENXIO : Int := 6
def EACCES : Int := 13
def EINVAL : Int := 22
def ENAMETOOLONG : Int := 36
def EINTR : Int := 4
def EWOULDBLOCK : Int := 11
def EPIPE : Int := 32
def EIO5 : Int := 5

/-! Section: Core data model

The portable configuration enums live in the `serial-core` crate, which
is not part of the provided sources; only their use sites in
`serial-unix` are.  They are reproduced from the spec's data model
(section 3) and the variant names used throughout `tty.rs`. -/

/-- Modelled from the spec: `BaudRate` from `serial-core` — "tagged
value — one of a closed set of named standard rates, or an arbitrary
positive integer (other)"; variant names as used in `tty.rs`. -/
inductive BaudRate where
  | Baud110
  | Baud300
  | Baud600
  | Baud1200
  | Baud2400
  | Baud4800
  | Baud9600
  | Baud19200
  | Baud38400
  | Baud57600
  | Baud115200
  | BaudOther (n : Nat)
deriving DecidableEq, Repr

/-- Modelled from the spec: `CharSize` from `serial-core` — "one of
{5,6,7,8} bits per character". -/
inductive CharSize where
  | Bits5
  | Bits6
  | Bits7
  | Bits8
deriving DecidableEq, Repr

/-- Modelled from the spec: `Parity` from `serial-core` — "one of
{None, Odd, Even}". -/
inductive Parity where
  | ParityNone
  | ParityOdd
  | ParityEven
deriving DecidableEq, Repr

/-- Modelled from the spec: `StopBits` from `serial-core` — "one of
{1, 2}". -/
inductive StopBits where
  | Stop1
  | Stop2
deriving DecidableEq, Repr

/-- Modelled from the spec: `FlowControl` from `serial-core` — "one of
{None, Software, Hardware}". -/
inductive FlowControl where
  | FlowNone
  | FlowSoftware
  | FlowHardware
deriving DecidableEq, Repr

/-- Modelled from the spec: the `io::ErrorKind` sub-kinds that the
backend produces. -/
inductive IoKind where
  | Interrupted
  | WouldBlock
  | TimedOut
  | BrokenPipe
  | Other
deriving DecidableEq, Repr

/-- Modelled from the spec: `ErrorKind` from `serial-core` — "one of
{NoDevice, InvalidInput, Io(sub-kind)}".  The human-readable message
attached by `core::Error::new` comes from the OS `strerror` facility
and is outside the model. -/
inductive ErrorKind where
  | NoDevice
  | InvalidInput
  | Io (kind : IoKind)
deriving DecidableEq, Repr

instance {ε α : Type} [DecidableEq ε] [DecidableEq α] : DecidableEq (Except ε α) :=
  fun a b =>
    match a, b with
    | Except.ok x, Except.ok y =>
      match decEq x y with
      | isTrue h => isTrue (by rw [h])
      | isFalse h => isFalse (by intro hc; cases hc; exact h rfl)
    | Except.error x, Except.error y =>
      match decEq x y with
      | isTrue h => isTrue (by rw [h])
      | isFalse h => isFalse (by intro hc; cases hc; exact h rfl)
    | Except.ok _, Except.error _ => isFalse (by intro hc; cases hc)
    | Except.error _, Except.ok _ => isFalse (by intro hc; cases hc)

/-! Section: `termios2.rs`: the extended (Linux) backend -/

/-- `termios2.rs`: `pub enum Speed \x7b Standard(speed_t), Custom(speed_t) \x7d`. -/
inductive Speed where
  | Standard (c : Nat)
  | Custom (c : Nat)
deriving DecidableEq, Repr

/-- The `libc::termios2` control block.  `c_cc` is the control-character
array; flag words are `u32`, represented as `Nat`. -/
structure Termios where
  c_iflag : Nat
  c_oflag : Nat
  c_cflag : Nat
  c_lflag : Nat
  c_line : Nat
  c_cc : List Nat
  c_ispeed : Nat
  c_ospeed : Nat
deriving DecidableEq, Repr

/-- `termios2.rs` `get_speed`: decode (output speed, input speed) from a
`termios2` block. -/
def get_speed (t : Termios) : Speed × Speed :=
  let obits := t.c_cflag &&& CBAUD
  let ospeed := if obits = BOTHER then Speed.Custom t.c_ospeed else Speed.Standard obits
  let ibits := (t.c_cflag >>> IBSHIFT) &&& CBAUD
  let ispeed :=
    if ibits = B0 then ospeed
    else if ibits = BOTHER then Speed.Custom t.c_ispeed
    else Speed.Standard ibits
  (ospeed, ispeed)

/-- `termios2.rs` `set_speed`: clear both baud sub-fields, set the input
copy to the `B0` ("same as output") sentinel, then write the requested
speed into the output sub-field (and `c_ospeed` for a custom rate).
Returns `Ok` exactly as the source does. -/
def set_speed (t : Termios) (speed : Speed) : Except ErrorKind Termios :=
  let cflag0 := t.c_cflag &&& complement32 (CBAUD ||| (CBAUD <<< IBSHIFT))
  let cflag1 := cflag0 ||| (B0 <<< IBSHIFT)
  match speed with
  | Speed.Standard baud => Except.ok { t with c_cflag := cflag1 ||| baud }
  | Speed.Custom baud => Except.ok { t with c_cflag := cflag1 ||| BOTHER, c_ospeed := baud }

/-- A valid standard platform speed code: a value of the baud sub-field
other than the `BOTHER` sentinel.  On the modelled Linux target these
are exactly the `libc` `B*` constants. -/
def valid_standard_code (c : Nat) : Prop := c &&& CBAUD = c ∧ c ≠ BOTHER

/-- A `Speed` value acceptable to the codec: a standard speed with a
valid platform code, or a custom speed with any numeric baud. -/
def valid_speed : Speed → Prop
  | Speed.Standard c => valid_standard_code c
  | Speed.Custom _ => True

instance : DecidablePred valid_standard_code := fun c =>
  inferInstanceAs (Decidable (c &&& CBAUD = c ∧ c ≠ BOTHER))

instance : DecidablePred valid_speed := fun s =>
  match s with
  | Speed.Standard c => inferInstanceAs (Decidable (valid_standard_code c))
  | Speed.Custom _ => inferInstanceAs (Decidable True)

/-- The all-zero control block, used as a concrete witness state. -/
def zeroTermios : Termios :=
  { c_iflag := 0, c_oflag := 0, c_cflag := 0, c_lflag := 0,
    c_line := 0, c_cc := [], c_ispeed := 0, c_ospeed := 0 }


/-! Section: `tty.rs`: the Device Settings layer -/

/-- `tty.rs`: `TTYSettings` wraps one raw `termios` snapshot. -/
structure TTYSettings where
  termios : Termios
deriving DecidableEq, Repr

/-- Decode of one `Speed` into the portable `BaudRate`: the body of the
`match ospeed` in `TTYSettings::baud_rate`, Linux arms in source order
(the Rust `match` on speed codes is written as an `if`-chain). -/
def decode_speed : Speed → Option BaudRate
  | Speed.Standard baud =>
    if baud = B50 then some (BaudRate.BaudOther 50)
    else if baud = B75 then some (BaudRate.BaudOther 75)
    else if baud = B110 then some BaudRate.Baud110
    else if baud = B134 then some (BaudRate.BaudOther 134)
    else if baud = B150 then some (BaudRate.BaudOther 150)
    else if baud = B200 then some (BaudRate.BaudOther 200)
    else if baud = B300 then some BaudRate.Baud300
    else if baud = B600 then some BaudRate.Baud600
    else if baud = B1200 then some BaudRate.Baud1200
    else if baud = B1800 then some (BaudRate.BaudOther 1800)
    else if baud = B2400 then some BaudRate.Baud2400
    else if baud = B4800 then some BaudRate.Baud4800
    else if baud = B9600 then some BaudRate.Baud9600
    else if baud = B19200 then some BaudRate.Baud19200
    else if baud = B38400 then some BaudRate.Baud38400
    else if baud = B57600 then some BaudRate.Baud57600
    else if baud = B115200 then some BaudRate.Baud115200
    else if baud = B230400 then some (BaudRate.BaudOther 230400)
    else if baud = B460800 then some (BaudRate.BaudOther 460800)
    else if baud = B500000 then some (BaudRate.BaudOther 500000)
    else if baud = B576000 then some (BaudRate.BaudOther 576000)
    else if baud = B921600 then some (BaudRate.BaudOther 921600)
    else if baud = B1000000 then some (BaudRate.BaudOther 1000000)
    else if baud = B1152000 then some (BaudRate.BaudOther 1152000)
    else if baud = B1500000 then some (BaudRate.BaudOther 1500000)
    else if baud = B2000000 then some (BaudRate.BaudOther 2000000)
    else if baud = B2500000 then some (BaudRate.BaudOther 2500000)
    else if baud = B3000000 then some (BaudRate.BaudOther 3000000)
    else if baud = B3500000 then some (BaudRate.BaudOther 3500000)
    else if baud = B4000000 then some (BaudRate.BaudOther 4000000)
    else none
  | Speed.Custom baud => some (BaudRate.BaudOther baud)

/-- `TTYSettings::baud_rate` (Linux): `None` on output/input speed
mismatch, else the decoded output speed. -/
def baud_rate (s : TTYSettings) : Option BaudRate :=
  let sp := get_speed s.termios
  if sp.1 ≠ sp.2 then none else decode_speed sp.1

/-- `TTYSettings::char_size`. -/
def char_size (s : TTYSettings) : Option CharSize :=
  let size := s.termios.c_cflag &&& CSIZE
  if size = CS8 then some CharSize.Bits8
  else if size = CS7 then some CharSize.Bits7
  else if size = CS6 then some CharSize.Bits6
  else if size = CS5 then some CharSize.Bits5
  else none

/-- `TTYSettings::parity`. -/
def parity (s : TTYSettings) : Option Parity :=
  if s.termios.c_cflag &&& PARENB ≠ 0 then
    if s.termios.c_cflag &&& PARODD ≠ 0 then some Parity.ParityOdd
    else some Parity.ParityEven
  else some Parity.ParityNone

/-- `TTYSettings::stop_bits`. -/
def stop_bits (s : TTYSettings) : Option StopBits :=
  if s.termios.c_cflag &&& CSTOPB ≠ 0 then some StopBits.Stop2
  else some StopBits.Stop1

/-- `TTYSettings::flow_control`. -/
def flow_control (s : TTYSettings) : Option FlowControl :=
  if s.termios.c_cflag &&& CRTSCTS ≠ 0 then some FlowControl.FlowHardware
  else if s.termios.c_iflag &&& (IXON ||| IXOFF) ≠ 0 then some FlowControl.FlowSoftware
  else some FlowControl.FlowNone

/-- The `let speed = match baud_rate` table of `TTYSettings::set_baud_rate`
(Linux arms, source order; the Rust literal patterns on `BaudOther`
payloads are written as an `if`-chain on the payload, and the final
catch-all applies the Rust `as libc::speed_t` cast, i.e. `% 2^32`). -/
def speed_of_baud : BaudRate → Speed
  | BaudRate.Baud110 => Speed.Standard B110
  | BaudRate.Baud300 => Speed.Standard B300
  | BaudRate.Baud600 => Speed.Standard B600
  | BaudRate.Baud1200 => Speed.Standard B1200
  | BaudRate.Baud2400 => Speed.Standard B2400
  | BaudRate.Baud4800 => Speed.Standard B4800
  | BaudRate.Baud9600 => Speed.Standard B9600
  | BaudRate.Baud19200 => Speed.Standard B19200
  | BaudRate.Baud38400 => Speed.Standard B38400
  | BaudRate.Baud57600 => Speed.Standard B57600
  | BaudRate.Baud115200 => Speed.Standard B115200
  | BaudRate.BaudOther n =>
    if n = 50 then Speed.Standard B50
    else if n = 75 then Speed.Standard B75
    else if n = 134 then Speed.Standard B134
    else if n = 150 then Speed.Standard B150
    else if n = 200 then Speed.Standard B200
    else if n = 1800 then Speed.Standard B1800
    else if n = 230400 then Speed.Standard B230400
    else if n = 460800 then Speed.Standard B460800
    else if n = 500000 then Speed.Standard B500000
    else if n = 576000 then Speed.Standard B576000
    else if n = 921600 then Speed.Standard B921600
    else if n = 1000000 then Speed.Standard B1000000
    else if n = 1152000 then Speed.Standard B1152000
    else if n = 1500000 then Speed.Standard B1500000
    else if n = 2000000 then Speed.Standard B2000000
    else if n = 2500000 then Speed.Standard B2500000
    else if n = 3000000 then Speed.Standard B3000000
    else if n = 3500000 then Speed.Standard B3500000
    else if n = 4000000 then Speed.Standard B4000000
    else Speed.Custom (n % 4294967296)

/-- `TTYSettings::set_baud_rate`: encode into a `Speed`, delegate to
`termios2::set_speed`, return `Ok` on success. -/
def set_baud_rate (s : TTYSettings) (br : BaudRate) : Except ErrorKind TTYSettings :=
  match set_speed s.termios (speed_of_baud br) with
  | Except.ok t => Except.ok { termios := t }
  | Except.error e => Except.error e

/-- `TTYSettings::set_char_size`. -/
def set_char_size (s : TTYSettings) (cs : CharSize) : TTYSettings :=
  let size :=
    match cs with
    | CharSize.Bits5 => CS5
    | CharSize.Bits6 => CS6
    | CharSize.Bits7 => CS7
    | CharSize.Bits8 => CS8
  { s with termios := { s.termios with
      c_cflag := (s.termios.c_cflag &&& complement32 CSIZE) ||| size } }

/-- `TTYSettings::set_parity`. -/
def set_parity (s : TTYSettings) (p : Parity) : TTYSettings :=
  match p with
  | Parity.ParityNone =>
    { s with termios := { s.termios with
        c_cflag := s.termios.c_cflag &&& complement32 (PARENB ||| PARODD),
        c_iflag := (s.termios.c_iflag &&& complement32 INPCK) ||| IGNPAR } }
  | Parity.ParityOdd =>
    { s with termios := { s.termios with
        c_cflag := s.termios.c_cflag ||| (PARENB ||| PARODD),
        c_iflag := (s.termios.c_iflag ||| INPCK) &&& complement32 IGNPAR } }
  | Parity.ParityEven =>
    { s with termios := { s.termios with
        c_cflag := (s.termios.c_cflag &&& complement32 PARODD) ||| PARENB,
        c_iflag := (s.termios.c_iflag ||| INPCK) &&& complement32 IGNPAR } }

/-- `TTYSettings::set_stop_bits`. -/
def set_stop_bits (s : TTYSettings) (sb : StopBits) : TTYSettings :=
  match sb with
  | StopBits.Stop1 =>
    { s with termios := { s.termios with
        c_cflag := s.termios.c_cflag &&& complement32 CSTOPB } }
  | StopBits.Stop2 =>
    { s with termios := { s.termios with
        c_cflag := s.termios.c_cflag ||| CSTOPB } }

/-- `TTYSettings::set_flow_control`. -/
def set_flow_control (s : TTYSettings) (fc : FlowControl) : TTYSettings :=
  match fc with
  | FlowControl.FlowNone =>
    { s with termios := { s.termios with
        c_iflag := s.termios.c_iflag &&& complement32 (IXON ||| IXOFF),
        c_cflag := s.termios.c_cflag &&& complement32 CRTSCTS } }
  | FlowControl.FlowSoftware =>
    { s with termios := { s.termios with
        c_iflag := s.termios.c_iflag ||| (IXON ||| IXOFF),
        c_cflag := s.termios.c_cflag &&& complement32 CRTSCTS } }
  | FlowControl.FlowHardware =>
    { s with termios := { s.termios with
        c_iflag := s.termios.c_iflag &&& complement32 (IXON ||| IXOFF),
        c_cflag := s.termios.c_cflag ||| CRTSCTS } }

/-- The platform's standard baud enumeration (Linux): every `BaudRate`
that `set_baud_rate` encodes as a standard platform code. -/
def standardRates : List BaudRate :=
  [BaudRate.BaudOther 50, BaudRate.BaudOther 75, BaudRate.Baud110,
   BaudRate.BaudOther 134, BaudRate.BaudOther 150, BaudRate.BaudOther 200,
   BaudRate.Baud300, BaudRate.Baud600, BaudRate.Baud1200,
   BaudRate.BaudOther 1800, BaudRate.Baud2400, BaudRate.Baud4800,
   BaudRate.Baud9600, BaudRate.Baud19200, BaudRate.Baud38400,
   BaudRate.Baud57600, BaudRate.Baud115200, BaudRate.BaudOther 230400,
   BaudRate.BaudOther 460800, BaudRate.BaudOther 500000,
   BaudRate.BaudOther 576000, BaudRate.BaudOther 921600,
   BaudRate.BaudOther 1000000, BaudRate.BaudOther 1152000,
   BaudRate.BaudOther 1500000, BaudRate.BaudOther 2000000,
   BaudRate.BaudOther 2500000, BaudRate.BaudOther 3000000,
   BaudRate.BaudOther 3500000, BaudRate.BaudOther 4000000]

/-- The numeric values that the `BaudOther` arms of `set_baud_rate`
treat as standard rates (Linux). -/
def stdOtherValues : List Nat :=
  [50, 75, 134, 150, 200, 1800, 230400, 460800, 500000, 576000, 921600,
   1000000, 1152000, 1500000, 2000000, 2500000, 3000000, 3500000, 4000000]

/-- All-zero settings snapshot, used as a concrete witness state. -/
def zeroSettings : TTYSettings := { termios := zeroTermios }

/-- The snapshot produced by `set_baud_rate zeroSettings (BaudOther 12345)`. -/
def custom12345 : TTYSettings :=
  { termios := { zeroTermios with c_cflag := 4096, c_ospeed := 12345 } }

/-! Section: `poll.rs`: the readiness wait -/

def POLLIN : Nat := 1
def POLLPRI : Nat := 2
def POLLOUT : Nat := 4
def POLLERR : Nat := 8
def POLLHUP : Nat := 16
def POLLNVAL : Nat := 32

/-- `poll.rs` `wait_fd`, as a function of the poll outcome.  The OS
effects are supplied as an oracle: `wait` is `do_poll`'s return value,
`errno` the ambient error slot read when the call fails, and `revents`
the readiness bits reported back in the `pollfd`.  The attached error
messages (built by `error_string` from `strerror`) are OS strings
outside the model; only the classified kind is tracked. -/
def wait_fd (events : Nat) (wait : Int) (errno : Int) (revents : Nat) :
    Except IoKind Unit :=
  if wait < 0 then
    Except.error (if errno = EINTR then IoKind.Interrupted else IoKind.Other)
  else if wait = 0 then Except.error IoKind.TimedOut
  else if revents &&& events ≠ 0 then Except.ok ()
  else if revents &&& (POLLHUP ||| POLLNVAL) ≠ 0 then Except.error IoKind.BrokenPipe
  else Except.error IoKind.Other

/-! Section: `error.rs`: the error mapper -/

/-- `error.rs` `from_raw_os_error`: classify a raw OS error code
(the Rust `match` with or-patterns is written as an `if`-chain). -/
def from_raw_os_error (errno : Int) : ErrorKind :=
  if errno = EBUSY ∨ errno = EISDIR ∨ errno = ELOOP ∨ errno = ENOTDIR ∨
      errno = ENOENT ∨ errno = ENODEV ∨ errno = ENXIO ∨ errno = EACCES then
    ErrorKind.NoDevice
  else if errno = EINVAL ∨ errno = ENAMETOOLONG then ErrorKind.InvalidInput
  else if errno = EINTR then ErrorKind.Io IoKind.Interrupted
  else if errno = EWOULDBLOCK then ErrorKind.Io IoKind.WouldBlock
  else ErrorKind.Io IoKind.Other

/-! Section: `TTYPort::open`: failure atomicity -/

/-- Oracle for the OS steps of `TTYPort::open`: `none` means the step
succeeds, `some e` that it fails with errno `e`.  `pathValid` models
`CString::new` on the path bytes (`false`: embedded NUL byte). -/
structure OpenEnv where
  pathValid : Bool
  openErrno : Option Int
  exclErrno : Option Int
  fcntlErrno : Option Int
  tcgetsErrno : Option Int
  tcsetsErrno : Option Int
  tcflushErrno : Option Int
deriving DecidableEq, Repr

/-- `TTYPort::open` control and resource flow.  Returns the mapped
result and whether the device handle is still open when `open`
returns.  Once the `TTYPort` value wraps the freshly opened handle,
every early `return Err` drops the port, and `Drop for TTYPort`
releases exclusive access (`TIOCNXCL`, best effort) and closes the
handle; that implicit drop is written out explicitly here as the
`false` handle state on each failure path after handle creation. -/
def tty_open (env : OpenEnv) : Except ErrorKind Unit × Bool :=
  if env.pathValid = false then (Except.error (from_raw_os_error EINVAL), false)
  else
    match env.openErrno with
    | some e => (Except.error (from_raw_os_error e), false)
    | none =>
      match env.exclErrno with
      | some e => (Except.error (from_raw_os_error e), false)
      | none =>
        match env.fcntlErrno with
        | some e => (Except.error (from_raw_os_error e), false)
        | none =>
          match env.tcgetsErrno with
          | some e => (Except.error (from_raw_os_error e), false)
          | none =>
            match env.tcsetsErrno with
            | some e => (Except.error (from_raw_os_error e), false)
            | none =>
              match env.tcflushErrno with
              | some e => (Except.error (from_raw_os_error e), false)
              | none => (Except.ok (), true)

/-- A snapshot whose raw attributes decode to mismatched output (B50)
and input (B75) speeds, used as a concrete witness state. -/
def mismatchSettings : TTYSettings :=
  { termios := { zeroTermios with c_cflag := 131073 } }


/-- Open oracle where only the exclusive-access ioctl fails (EBUSY). -/
def envExclFail : OpenEnv :=
  { pathValid := true, openErrno := none, exclErrno := some 16,
    fcntlErrno := none, tcgetsErrno := none, tcsetsErrno := none,
    tcflushErrno := none }


/-! Section: Theorems -/

/-! Section: Bitwise helper lemmas -/

theorem shiftRight_lor_distrib (a b k : Nat) :
    (a ||| b) >>> k = (a >>> k) ||| (b >>> k) := by
  apply Nat.eq_of_testBit_eq
  intro i
  simp [Nat.testBit_shiftRight, Nat.testBit_or]

theorem shiftRight_land_distrib (a b k : Nat) :
    (a &&& b) >>> k = (a >>> k) &&& (b >>> k) := by
  apply Nat.eq_of_testBit_eq
  intro i
  simp [Nat.testBit_shiftRight, Nat.testBit_and]

/-- Reading mask `m` out of `(x &&& a) ||| b` when `a` has no bits in `m`:
only `b`'s bits remain. -/
theorem read_and_or_cleared (x a b m : Nat) (h : a &&& m = 0) :
    ((x &&& a) ||| b) &&& m = b &&& m := by
  rw [Nat.and_distrib_right, Nat.and_assoc, h, Nat.and_zero, Nat.zero_or]

/-- Reading mask `m` out of `(x &&& a) ||| b` when `a` keeps all of `m`
and `b` has no bits in `m`: the read is unchanged. -/
theorem read_and_or_kept (x a b m : Nat) (h1 : a &&& m = m) (h2 : b &&& m = 0) :
    ((x &&& a) ||| b) &&& m = x &&& m := by
  rw [Nat.and_distrib_right, Nat.and_assoc, h1, h2, Nat.or_zero]

/-- Reading mask `m` out of `x &&& a` when `a` keeps all of `m`. -/
theorem read_and_kept (x a m : Nat) (h : a &&& m = m) :
    (x &&& a) &&& m = x &&& m := by
  rw [Nat.and_assoc, h]

/-- Reading mask `m` out of `x ||| b` when `b` has no bits in `m`. -/
theorem read_or_kept (x b m : Nat) (h : b &&& m = 0) :
    (x ||| b) &&& m = x &&& m := by
  rw [Nat.and_distrib_right, h, Nat.or_zero]

/-- Shifted read of mask `m` out of `(x &&& a) ||| b`, unchanged case. -/
theorem read_shift_and_or_kept (x a b m k : Nat)
    (h1 : (a >>> k) &&& m = m) (h2 : (b >>> k) &&& m = 0) :
    (((x &&& a) ||| b) >>> k) &&& m = (x >>> k) &&& m := by
  rw [shiftRight_lor_distrib, shiftRight_land_distrib, Nat.and_distrib_right,
    Nat.and_assoc, h1, h2, Nat.or_zero]

/-- Shifted read of mask `m` out of `(x &&& a) ||| b` when both the kept
bits of `a` and the bits of `b` vanish under the shifted mask. -/
theorem read_shift_and_or_zero (x a b m k : Nat)
    (h1 : (a >>> k) &&& m = 0) (h2 : (b >>> k) &&& m = 0) :
    (((x &&& a) ||| b) >>> k) &&& m = 0 := by
  rw [shiftRight_lor_distrib, shiftRight_land_distrib, Nat.and_distrib_right,
    Nat.and_assoc, h1, Nat.and_zero, h2, Nat.or_zero]

/-- Shifted read of mask `m` out of `x &&& a`, unchanged case. -/
theorem read_shift_and_kept (x a m k : Nat) (h : (a >>> k) &&& m = m) :
    ((x &&& a) >>> k) &&& m = (x >>> k) &&& m := by
  rw [shiftRight_land_distrib, Nat.and_assoc, h]

/-- Shifted read of mask `m` out of `x ||| b`, unchanged case. -/
theorem read_shift_or_kept (x b m k : Nat) (h : (b >>> k) &&& m = 0) :
    ((x ||| b) >>> k) &&& m = (x >>> k) &&& m := by
  rw [shiftRight_lor_distrib, Nat.and_distrib_right, h, Nat.or_zero]

/-- ORing in bits of `m` makes the masked read nonzero. -/
theorem read_or_ne_zero (x b m : Nat) (h : b &&& m ≠ 0) :
    (x ||| b) &&& m ≠ 0 := by
  rw [Nat.and_distrib_right]
  intro hc
  apply h
  have hle : b &&& m ≤ (x &&& m) ||| (b &&& m) := by
    apply Nat.le_of_testBit
    intro i hi
    simp [Nat.testBit_or, hi]
  omega

/-! Section: Helper lemmas about the speed codec -/

/-- Normal form of `set_speed` for a standard code. -/
theorem set_speed_standard (t : Termios) (c : Nat) :
    set_speed t (Speed.Standard c) =
      Except.ok { t with c_cflag :=
        (t.c_cflag &&& complement32 (CBAUD ||| (CBAUD <<< IBSHIFT))) ||| c } := by
  simp [set_speed, B0]

/-- Normal form of `set_speed` for a custom rate. -/
theorem set_speed_custom (t : Termios) (n : Nat) :
    set_speed t (Speed.Custom n) =
      Except.ok { t with
        c_cflag := (t.c_cflag &&& complement32 (CBAUD ||| (CBAUD <<< IBSHIFT))) ||| BOTHER,
        c_ospeed := n } := by
  simp [set_speed, B0]

/-- After encoding a valid standard code, decode returns that code for
both output and input speed. -/
theorem get_speed_after_standard (t : Termios) (c : Nat)
    (hc : c &&& CBAUD = c) (hb : c ≠ BOTHER) :
    get_speed { t with c_cflag :=
        (t.c_cflag &&& complement32 (CBAUD ||| (CBAUD <<< IBSHIFT))) ||| c } =
      (Speed.Standard c, Speed.Standard c) := by
  have hcsmall : c < 65536 := by
    have := Nat.and_le_right (n := c) (m := CBAUD)
    rw [hc] at this
    have : c ≤ 4111 := by simpa [CBAUD] using this
    omega
  have hshift : c >>> 16 = 0 := by
    rw [Nat.shiftRight_eq_div_pow]
    exact Nat.div_eq_of_lt hcsmall
  have hobits : ((t.c_cflag &&& complement32 (CBAUD ||| (CBAUD <<< IBSHIFT))) ||| c) &&& CBAUD
      = c := by
    rw [read_and_or_cleared _ _ _ _ (by decide), hc]
  have hibits : (((t.c_cflag &&& complement32 (CBAUD ||| (CBAUD <<< IBSHIFT))) ||| c) >>> IBSHIFT)
      &&& CBAUD = 0 := by
    apply read_shift_and_or_zero
    · decide
    · rw [IBSHIFT, hshift, Nat.zero_and]
  simp only [get_speed, hobits, hibits]
  simp [hb, B0]

/-- After encoding a custom rate, decode returns `Custom n` for both
output and input speed, the output sub-field holds `BOTHER`, and the
input sub-field holds the `B0` sentinel. -/
theorem get_speed_after_custom (t : Termios) (n : Nat) :
    get_speed { t with
        c_cflag := (t.c_cflag &&& complement32 (CBAUD ||| (CBAUD <<< IBSHIFT))) ||| BOTHER,
        c_ospeed := n } =
      (Speed.Custom n, Speed.Custom n) := by
  have hobits : ((t.c_cflag &&& complement32 (CBAUD ||| (CBAUD <<< IBSHIFT))) ||| BOTHER) &&& CBAUD
      = BOTHER := by
    rw [read_and_or_cleared _ _ _ _ (by decide)]
    decide
  have hibits : (((t.c_cflag &&& complement32 (CBAUD ||| (CBAUD <<< IBSHIFT))) ||| BOTHER) >>> IBSHIFT)
      &&& CBAUD = 0 := by
    apply read_shift_and_or_zero <;> decide
  simp only [get_speed, hobits, hibits]
  simp [B0]

/-- C1: Extended-backend speed codec round trip: for every
`termios2` block `t` and every valid `Speed` (standard with a valid
platform code, or custom with any numeric baud), after `set_speed` the
decode `get_speed` returns the requested speed as output speed and an
input speed equal to it; the shifted input sub-field is left at the
`B0` "same as output" sentinel, and for `Custom n` the output sub-field
holds `BOTHER` while `c_ospeed` holds exactly `n`. -/
theorem speed_codec_roundtrip (t : Termios) (s : Speed) (hs : valid_speed s)
    (t' : Termios) (h : set_speed t s = Except.ok t') :
    get_speed t' = (s, s) ∧
    (t'.c_cflag >>> IBSHIFT) &&& CBAUD = B0 ∧
    (∀ n, s = Speed.Custom n → t'.c_cflag &&& CBAUD = BOTHER ∧ t'.c_ospeed = n) := by
  cases s with
  | Standard c =>
    obtain ⟨hc, hb⟩ := hs
    rw [set_speed_standard] at h
    injection h with h
    subst h
    refine ⟨get_speed_after_standard t c hc hb, ?_, ?_⟩
    · show (((t.c_cflag &&& complement32 (CBAUD ||| (CBAUD <<< IBSHIFT))) ||| c) >>> IBSHIFT)
        &&& CBAUD = B0
      have hcsmall : c < 65536 := by
        have := Nat.and_le_right (n := c) (m := CBAUD)
        rw [hc] at this
        have : c ≤ 4111 := by simpa [CBAUD] using this
        omega
      have hshift : c >>> 16 = 0 := by
        rw [Nat.shiftRight_eq_div_pow]
        exact Nat.div_eq_of_lt hcsmall
      rw [B0]
      apply read_shift_and_or_zero
      · decide
      · rw [IBSHIFT, hshift, Nat.zero_and]
    · intro n hn
      exact absurd hn (by simp)
  | Custom m =>
    rw [set_speed_custom] at h
    injection h with h
    subst h
    refine ⟨get_speed_after_custom t m, ?_, ?_⟩
    · show (((t.c_cflag &&& complement32 (CBAUD ||| (CBAUD <<< IBSHIFT))) ||| BOTHER) >>> IBSHIFT)
        &&& CBAUD = B0
      rw [B0]
      apply read_shift_and_or_zero <;> decide
    · intro n hn
      injection hn with hn
      subst hn
      constructor
      · show ((t.c_cflag &&& complement32 (CBAUD ||| (CBAUD <<< IBSHIFT))) ||| BOTHER) &&& CBAUD
          = BOTHER
        rw [read_and_or_cleared _ _ _ _ (by decide)]
        decide
      · rfl

/-- Witness for C1 at a concrete input: encoding `B9600` (= 13) into
the all-zero block, and encoding a custom rate 12345. -/
theorem speed_codec_roundtrip_witness :
    valid_speed (Speed.Standard 13) ∧
    set_speed zeroTermios (Speed.Standard 13) =
      Except.ok { zeroTermios with c_cflag := 13 } ∧
    get_speed { zeroTermios with c_cflag := 13 } =
      (Speed.Standard 13, Speed.Standard 13) := by
  refine ⟨by constructor <;> decide, by decide, ?_⟩
  exact (speed_codec_roundtrip zeroTermios (Speed.Standard 13)
    ⟨by decide, by decide⟩ { zeroTermios with c_cflag := 13 } (by decide)).1


/-! Section: Generic helpers for `if`-chains -/

theorem prop_ite {c : Prop} [inst : Decidable c] {α : Sort _} (P : α → Prop) {a b : α}
    (ha : P a) (hb : P b) : P (if c then a else b) := by
  rcases inst with h | h
  · rwa [if_neg h]
  · rwa [if_pos h]

theorem dite_prop {c : Prop} [inst : Decidable c] {α : Sort _} (P : α → Prop) {a b : α}
    (ha : c → P a) (hb : ¬c → P b) : P (if c then a else b) := by
  rcases inst with h | h
  · rw [if_neg h]; exact hb h
  · rw [if_pos h]; exact ha h

/-! Section: Congruence helpers for the settings getters -/

theorem get_speed_congr (t t' : Termios)
    (h1 : t'.c_cflag &&& CBAUD = t.c_cflag &&& CBAUD)
    (h2 : (t'.c_cflag >>> IBSHIFT) &&& CBAUD = (t.c_cflag >>> IBSHIFT) &&& CBAUD)
    (h3 : t'.c_ospeed = t.c_ospeed) (h4 : t'.c_ispeed = t.c_ispeed) :
    get_speed t' = get_speed t := by
  simp only [get_speed, h1, h2, h3, h4]

theorem baud_rate_congr (s s' : TTYSettings)
    (h : get_speed s'.termios = get_speed s.termios) :
    baud_rate s' = baud_rate s := by
  simp only [baud_rate, h]

theorem char_size_congr (s s' : TTYSettings)
    (h : s'.termios.c_cflag &&& CSIZE = s.termios.c_cflag &&& CSIZE) :
    char_size s' = char_size s := by
  simp only [char_size, h]

theorem parity_congr (s s' : TTYSettings)
    (h1 : s'.termios.c_cflag &&& PARENB = s.termios.c_cflag &&& PARENB)
    (h2 : s'.termios.c_cflag &&& PARODD = s.termios.c_cflag &&& PARODD) :
    parity s' = parity s := by
  simp only [parity, h1, h2]

theorem stop_bits_congr (s s' : TTYSettings)
    (h : s'.termios.c_cflag &&& CSTOPB = s.termios.c_cflag &&& CSTOPB) :
    stop_bits s' = stop_bits s := by
  simp only [stop_bits, h]

theorem flow_control_congr (s s' : TTYSettings)
    (h1 : s'.termios.c_cflag &&& CRTSCTS = s.termios.c_cflag &&& CRTSCTS)
    (h2 : s'.termios.c_iflag &&& (IXON ||| IXOFF) = s.termios.c_iflag &&& (IXON ||| IXOFF)) :
    flow_control s' = flow_control s := by
  simp only [flow_control, h1, h2]

/-! Section: Shape of `set_baud_rate` -/

/-- Every `BaudRate` is encoded by `speed_of_baud` into a valid speed. -/
theorem speed_of_baud_valid (br : BaudRate) : valid_speed (speed_of_baud br) := by
  cases br with
  | BaudOther n =>
    iterate 19 refine prop_ite valid_speed ⟨by decide, by decide⟩ ?_
    exact trivial
  | _ => exact ⟨by decide, by decide⟩

/-- A successful `set_baud_rate` rewrites `c_cflag` by clearing both
baud sub-fields and ORing in one code whose bits lie inside `CBAUD`;
every other flag word is untouched (`c_ospeed` may change). -/
theorem set_baud_rate_shape (s : TTYSettings) (br : BaudRate) (s' : TTYSettings)
    (h : set_baud_rate s br = Except.ok s') :
    ∃ c, c &&& CBAUD = c ∧
      s'.termios.c_cflag =
        (s.termios.c_cflag &&& complement32 (CBAUD ||| (CBAUD <<< IBSHIFT))) ||| c ∧
      s'.termios.c_iflag = s.termios.c_iflag ∧
      s'.termios.c_ispeed = s.termios.c_ispeed := by
  cases hsp : speed_of_baud br with
  | Standard c =>
    have hv := speed_of_baud_valid br
    rw [hsp] at hv
    obtain ⟨hc, -⟩ := hv
    simp only [set_baud_rate, hsp, set_speed_standard] at h
    injection h with h
    subst h
    exact ⟨c, hc, rfl, rfl, rfl⟩
  | Custom n =>
    simp only [set_baud_rate, hsp, set_speed_custom] at h
    injection h with h
    subst h
    exact ⟨BOTHER, by decide, rfl, rfl, rfl⟩

/-- Bits inside `CBAUD` vanish under any mask disjoint from `CBAUD`. -/
theorem cbaud_code_masked_zero (c m : Nat) (hc : c &&& CBAUD = c)
    (hm : CBAUD &&& m = 0) : c &&& m = 0 := by
  rw [← hc, Nat.and_assoc, hm, Nat.and_zero]

/-! Section: C4: speed-mismatch policy -/

/-- C4: For every `TTYSettings` snapshot whose raw attributes decode
to an output speed different from the input speed, `baud_rate` returns
`none`. -/
theorem baud_rate_mismatch_none (s : TTYSettings) (o i : Speed)
    (h : get_speed s.termios = (o, i)) (hne : o ≠ i) :
    baud_rate s = none := by
  simp only [baud_rate, h]
  simp [hne]

/-- Witness for C4: a block decoding to output B50, input B75. -/
theorem baud_rate_mismatch_none_witness :
    get_speed mismatchSettings.termios = (Speed.Standard 1, Speed.Standard 2) ∧
    Speed.Standard 1 ≠ Speed.Standard 2 ∧
    baud_rate mismatchSettings = none :=
  ⟨by decide, by decide,
   baud_rate_mismatch_none mismatchSettings (Speed.Standard 1) (Speed.Standard 2)
     (by decide) (by decide)⟩

/-! Section: C9: the extended-backend encoder is infallible -/

/-- C9: `set_speed` returns `Ok` for every control block and every
`Speed`, and consequently `set_baud_rate` on the extended backend
returns `Ok` for every requested rate: the invalid-rate error permitted
by the Device Settings contract never occurs on this backend. -/
theorem set_speed_infallible :
    (∀ t s, ∃ t', set_speed t s = Except.ok t') ∧
    (∀ st br, ∃ st', set_baud_rate st br = Except.ok st') := by
  constructor
  · intro t s
    cases s with
    | Standard c => exact ⟨_, set_speed_standard t c⟩
    | Custom n => exact ⟨_, set_speed_custom t n⟩
  · intro st br
    obtain ⟨t', ht⟩ : ∃ t', set_speed st.termios (speed_of_baud br) = Except.ok t' := by
      cases speed_of_baud br with
      | Standard c => exact ⟨_, set_speed_standard _ _⟩
      | Custom n => exact ⟨_, set_speed_custom _ _⟩
    exact ⟨{ termios := t' }, by simp only [set_baud_rate, ht]⟩

/-! Section: C2: standard baud-rate round trip and idempotence -/

theorem baud_rate_of_get (s : TTYSettings) (sp : Speed)
    (h : get_speed s.termios = (sp, sp)) : baud_rate s = decode_speed sp := by
  simp only [baud_rate, h]
  simp

/-- Re-encoding the same code over an already-encoded flag word is a
no-op on the flag word. -/
theorem clear_or_idem (x c : Nat) (hc : c &&& CBAUD = c) :
    (((x &&& complement32 (CBAUD ||| (CBAUD <<< IBSHIFT))) ||| c) &&&
        complement32 (CBAUD ||| (CBAUD <<< IBSHIFT))) ||| c =
      (x &&& complement32 (CBAUD ||| (CBAUD <<< IBSHIFT))) ||| c := by
  have h0 : c &&& complement32 (CBAUD ||| (CBAUD <<< IBSHIFT)) = 0 :=
    cbaud_code_masked_zero c _ hc (by decide)
  rw [Nat.and_distrib_right, read_and_kept _ _ _ (by decide), h0, Nat.or_zero]

/-- Round trip and idempotence for one standard platform code. -/
theorem std_roundtrip_case (s : TTYSettings) (B : BaudRate) (c : Nat)
    (henc : speed_of_baud B = Speed.Standard c)
    (hc : c &&& CBAUD = c) (hb : c ≠ BOTHER)
    (hdec : decode_speed (Speed.Standard c) = some B) :
    ∃ s', set_baud_rate s B = Except.ok s' ∧ baud_rate s' = some B ∧
      set_baud_rate s' B = Except.ok s' := by
  refine ⟨{ termios := { s.termios with c_cflag :=
    (s.termios.c_cflag &&& complement32 (CBAUD ||| (CBAUD <<< IBSHIFT))) ||| c } },
    ?_, ?_, ?_⟩
  · simp only [set_baud_rate, henc, set_speed_standard]
  · rw [baud_rate_of_get _ (Speed.Standard c)
      (get_speed_after_standard s.termios c hc hb), hdec]
  · have hidem := clear_or_idem s.termios.c_cflag c hc
    simp only [set_baud_rate, henc, set_speed_standard, hidem]

/-- C2: For every baud rate in the platform's standard enumeration
and every `TTYSettings` snapshot, `set_baud_rate` returns `Ok`, a
subsequent `baud_rate` reads the same rate back, and applying
`set_baud_rate` twice leaves the raw attribute block exactly as one
application leaves it. -/
theorem standard_baud_roundtrip_idem (B : BaudRate) (hB : B ∈ standardRates)
    (s : TTYSettings) :
    ∃ s', set_baud_rate s B = Except.ok s' ∧ baud_rate s' = some B ∧
      set_baud_rate s' B = Except.ok s' := by
  fin_cases hB <;>
    exact std_roundtrip_case s _ _ rfl (by decide) (by decide) (by decide)

/-- Witness for C2 at `Baud9600` over the all-zero snapshot. -/
theorem standard_baud_roundtrip_idem_witness :
    BaudRate.Baud9600 ∈ standardRates ∧
    (∃ s', set_baud_rate zeroSettings BaudRate.Baud9600 = Except.ok s' ∧
      baud_rate s' = some BaudRate.Baud9600 ∧
      set_baud_rate s' BaudRate.Baud9600 = Except.ok s') :=
  ⟨by decide, standard_baud_roundtrip_idem BaudRate.Baud9600 (by decide) zeroSettings⟩

/-! Section: Frame lemmas: the non-baud setters do not disturb the speed codec -/

theorem get_speed_set_char_size (s : TTYSettings) (v : CharSize) :
    get_speed (set_char_size s v).termios = get_speed s.termios := by
  cases v <;>
    (apply get_speed_congr <;>
      first
        | rfl
        | exact read_and_or_kept _ _ _ _ (by decide) (by decide)
        | exact read_shift_and_or_kept _ _ _ _ _ (by decide) (by decide))

theorem get_speed_set_parity (s : TTYSettings) (v : Parity) :
    get_speed (set_parity s v).termios = get_speed s.termios := by
  cases v <;>
    (apply get_speed_congr <;>
      first
        | rfl
        | exact read_and_kept _ _ _ (by decide)
        | exact read_or_kept _ _ _ (by decide)
        | exact read_and_or_kept _ _ _ _ (by decide) (by decide)
        | exact read_shift_and_kept _ _ _ _ (by decide)
        | exact read_shift_or_kept _ _ _ _ (by decide)
        | exact read_shift_and_or_kept _ _ _ _ _ (by decide) (by decide))

theorem get_speed_set_stop_bits (s : TTYSettings) (v : StopBits) :
    get_speed (set_stop_bits s v).termios = get_speed s.termios := by
  cases v <;>
    (apply get_speed_congr <;>
      first
        | rfl
        | exact read_and_kept _ _ _ (by decide)
        | exact read_or_kept _ _ _ (by decide)
        | exact read_shift_and_kept _ _ _ _ (by decide)
        | exact read_shift_or_kept _ _ _ _ (by decide))

theorem get_speed_set_flow_control (s : TTYSettings) (v : FlowControl) :
    get_speed (set_flow_control s v).termios = get_speed s.termios := by
  cases v <;>
    (apply get_speed_congr <;>
      first
        | rfl
        | exact read_and_kept _ _ _ (by decide)
        | exact read_or_kept _ _ _ (by decide)
        | exact read_shift_and_kept _ _ _ _ (by decide)
        | exact read_shift_or_kept _ _ _ _ (by decide))

/-! Section: C3: custom baud-rate exact recovery (corrected for u32 width) -/

/-- A `BaudOther` payload outside the standard enumeration is encoded as
a custom speed, truncated to the `speed_t` width by the `as` cast. -/
theorem speed_of_baud_other_custom (n : Nat) (hn : n ∉ stdOtherValues) :
    speed_of_baud (BaudRate.BaudOther n) = Speed.Custom (n % 4294967296) := by
  simp only [stdOtherValues, List.mem_cons, List.not_mem_nil, or_false] at hn
  push_neg at hn
  obtain ⟨h1, h2, h3, h4, h5, h6, h7, h8, h9, h10, h11, h12, h13, h14, h15, h16,
    h17, h18, h19⟩ := hn
  refine dite_prop (fun sp => sp = Speed.Custom (n % 4294967296)) (fun h => absurd h h1) (fun hx1 => ?_)
  refine dite_prop (fun sp => sp = Speed.Custom (n % 4294967296)) (fun h => absurd h h2) (fun hx2 => ?_)
  refine dite_prop (fun sp => sp = Speed.Custom (n % 4294967296)) (fun h => absurd h h3) (fun hx3 => ?_)
  refine dite_prop (fun sp => sp = Speed.Custom (n % 4294967296)) (fun h => absurd h h4) (fun hx4 => ?_)
  refine dite_prop (fun sp => sp = Speed.Custom (n % 4294967296)) (fun h => absurd h h5) (fun hx5 => ?_)
  refine dite_prop (fun sp => sp = Speed.Custom (n % 4294967296)) (fun h => absurd h h6) (fun hx6 => ?_)
  refine dite_prop (fun sp => sp = Speed.Custom (n % 4294967296)) (fun h => absurd h h7) (fun hx7 => ?_)
  refine dite_prop (fun sp => sp = Speed.Custom (n % 4294967296)) (fun h => absurd h h8) (fun hx8 => ?_)
  refine dite_prop (fun sp => sp = Speed.Custom (n % 4294967296)) (fun h => absurd h h9) (fun hx9 => ?_)
  refine dite_prop (fun sp => sp = Speed.Custom (n % 4294967296)) (fun h => absurd h h10) (fun hx10 => ?_)
  refine dite_prop (fun sp => sp = Speed.Custom (n % 4294967296)) (fun h => absurd h h11) (fun hx11 => ?_)
  refine dite_prop (fun sp => sp = Speed.Custom (n % 4294967296)) (fun h => absurd h h12) (fun hx12 => ?_)
  refine dite_prop (fun sp => sp = Speed.Custom (n % 4294967296)) (fun h => absurd h h13) (fun hx13 => ?_)
  refine dite_prop (fun sp => sp = Speed.Custom (n % 4294967296)) (fun h => absurd h h14) (fun hx14 => ?_)
  refine dite_prop (fun sp => sp = Speed.Custom (n % 4294967296)) (fun h => absurd h h15) (fun hx15 => ?_)
  refine dite_prop (fun sp => sp = Speed.Custom (n % 4294967296)) (fun h => absurd h h16) (fun hx16 => ?_)
  refine dite_prop (fun sp => sp = Speed.Custom (n % 4294967296)) (fun h => absurd h h17) (fun hx17 => ?_)
  refine dite_prop (fun sp => sp = Speed.Custom (n % 4294967296)) (fun h => absurd h h18) (fun hx18 => ?_)
  refine dite_prop (fun sp => sp = Speed.Custom (n % 4294967296)) (fun h => absurd h h19) (fun hx19 => ?_)
  rfl

/-- Counterexample to C3 as stated: the rate `2^32` is not in the
standard enumeration, yet decoding after `set_baud_rate` recovers `0`,
not `2^32` — the Rust `as libc::speed_t` cast truncates the `usize`
payload to 32 bits. -/
theorem custom_baud_truncation_counterexample :
    (4294967296 : Nat) ∉ stdOtherValues ∧
    set_baud_rate zeroSettings (BaudRate.BaudOther 4294967296) =
      Except.ok { termios := { zeroTermios with c_cflag := 4096 } } ∧
    baud_rate { termios := { zeroTermios with c_cflag := 4096 } } =
      some (BaudRate.BaudOther 0) ∧
    some (BaudRate.BaudOther 0) ≠ some (BaudRate.BaudOther 4294967296) :=
  ⟨by decide, by decide, by decide, by decide⟩

/-- C3 (amended): For every numeric rate `n` below `2^32` (the
`speed_t` width) and not in the standard enumeration,
`set_baud_rate (BaudOther n)` stores the rate in the `BOTHER`-sentinel
representation with `c_ospeed = n`, a subsequent `baud_rate` returns
exactly `BaudOther n`, and the decode still recovers `n` after any of
`set_char_size`, `set_parity`, `set_stop_bits` or `set_flow_control` is
applied in between. -/
theorem custom_baud_exact_recovery (n : Nat) (hn : n ∉ stdOtherValues)
    (hlt : n < 4294967296) (s s' : TTYSettings)
    (h : set_baud_rate s (BaudRate.BaudOther n) = Except.ok s') :
    (s'.termios.c_cflag &&& CBAUD = BOTHER ∧ s'.termios.c_ospeed = n) ∧
    baud_rate s' = some (BaudRate.BaudOther n) ∧
    (∀ v, baud_rate (set_char_size s' v) = some (BaudRate.BaudOther n)) ∧
    (∀ v, baud_rate (set_parity s' v) = some (BaudRate.BaudOther n)) ∧
    (∀ v, baud_rate (set_stop_bits s' v) = some (BaudRate.BaudOther n)) ∧
    (∀ v, baud_rate (set_flow_control s' v) = some (BaudRate.BaudOther n)) := by
  have hsp := speed_of_baud_other_custom n hn
  rw [Nat.mod_eq_of_lt hlt] at hsp
  simp only [set_baud_rate, hsp, set_speed_custom] at h
  injection h with h
  subst h
  have hbr : baud_rate ({ termios := { s.termios with
      c_cflag := (s.termios.c_cflag &&& complement32 (CBAUD ||| (CBAUD <<< IBSHIFT))) ||| BOTHER,
      c_ospeed := n } } : TTYSettings) = some (BaudRate.BaudOther n) := by
    rw [baud_rate_of_get _ (Speed.Custom n) (get_speed_after_custom s.termios n)]
    rfl
  refine ⟨⟨?_, rfl⟩, hbr, ?_, ?_, ?_, ?_⟩
  · exact (read_and_or_cleared _ _ _ _ (by decide)).trans (by decide)
  · intro v
    rw [baud_rate_congr _ _ (get_speed_set_char_size _ v)]
    exact hbr
  · intro v
    rw [baud_rate_congr _ _ (get_speed_set_parity _ v)]
    exact hbr
  · intro v
    rw [baud_rate_congr _ _ (get_speed_set_stop_bits _ v)]
    exact hbr
  · intro v
    rw [baud_rate_congr _ _ (get_speed_set_flow_control _ v)]
    exact hbr

/-- Witness for C3 (amended) at the concrete rate 12345. -/
theorem custom_baud_exact_recovery_witness :
    (12345 : Nat) ∉ stdOtherValues ∧ (12345 : Nat) < 4294967296 ∧
    set_baud_rate zeroSettings (BaudRate.BaudOther 12345) = Except.ok custom12345 ∧
    baud_rate custom12345 = some (BaudRate.BaudOther 12345) ∧
    baud_rate (set_parity custom12345 Parity.ParityOdd) = some (BaudRate.BaudOther 12345) :=
  ⟨by decide, by decide, by decide,
   (custom_baud_exact_recovery 12345 (by decide) (by decide) zeroSettings custom12345
     (by decide)).2.1,
   (custom_baud_exact_recovery 12345 (by decide) (by decide) zeroSettings custom12345
     (by decide)).2.2.2.1 Parity.ParityOdd⟩

/-! Section: C5: per-field round trips and pairwise non-interference -/

theorem read_and_cleared (x a m : Nat) (h : a &&& m = 0) :
    (x &&& a) &&& m = 0 := by
  rw [Nat.and_assoc, h, Nat.and_zero]

theorem read_or_and_kept (x b a m : Nat) (h1 : a &&& m = m) (h2 : b &&& m = 0) :
    ((x ||| b) &&& a) &&& m = x &&& m := by
  rw [Nat.and_assoc, h1, Nat.and_distrib_right, h2, Nat.or_zero]

theorem char_size_roundtrip (s : TTYSettings) (v : CharSize) :
    char_size (set_char_size s v) = some v := by
  cases v with
  | Bits5 =>
    have h : (s.termios.c_cflag &&& complement32 CSIZE) &&& CSIZE = 0 :=
      read_and_cleared _ _ _ (by decide)
    simp [char_size, set_char_size, CS8, CS7, CS6, CS5, h]
  | Bits6 =>
    have h : ((s.termios.c_cflag &&& complement32 CSIZE) ||| 16) &&& CSIZE = 16 :=
      (read_and_or_cleared _ _ _ _ (by decide)).trans (by decide)
    simp [char_size, set_char_size, CS8, CS7, CS6, CS5, h]
  | Bits7 =>
    have h : ((s.termios.c_cflag &&& complement32 CSIZE) ||| 32) &&& CSIZE = 32 :=
      (read_and_or_cleared _ _ _ _ (by decide)).trans (by decide)
    simp [char_size, set_char_size, CS8, CS7, CS6, CS5, h]
  | Bits8 =>
    have h : ((s.termios.c_cflag &&& complement32 CSIZE) ||| 48) &&& CSIZE = 48 :=
      (read_and_or_cleared _ _ _ _ (by decide)).trans (by decide)
    simp [char_size, set_char_size, CS8, CS7, CS6, CS5, h]

theorem parity_roundtrip (s : TTYSettings) (v : Parity) :
    parity (set_parity s v) = some v := by
  cases v with
  | ParityNone =>
    have h : (s.termios.c_cflag &&& complement32 (PARENB ||| PARODD)) &&& PARENB = 0 :=
      read_and_cleared _ _ _ (by decide)
    simp [parity, set_parity, h]
  | ParityOdd =>
    have h1 : (s.termios.c_cflag ||| (PARENB ||| PARODD)) &&& PARENB ≠ 0 :=
      read_or_ne_zero _ _ _ (by decide)
    have h2 : (s.termios.c_cflag ||| (PARENB ||| PARODD)) &&& PARODD ≠ 0 :=
      read_or_ne_zero _ _ _ (by decide)
    simp [parity, set_parity, h1, h2]
  | ParityEven =>
    have h1 : ((s.termios.c_cflag &&& complement32 PARODD) ||| PARENB) &&& PARENB ≠ 0 :=
      read_or_ne_zero _ _ _ (by decide)
    have h2 : ((s.termios.c_cflag &&& complement32 PARODD) ||| PARENB) &&& PARODD = 0 :=
      (read_and_or_cleared _ _ _ _ (by decide)).trans (by decide)
    simp [parity, set_parity, h1, h2]

theorem stop_bits_roundtrip (s : TTYSettings) (v : StopBits) :
    stop_bits (set_stop_bits s v) = some v := by
  cases v with
  | Stop1 =>
    have h : (s.termios.c_cflag &&& complement32 CSTOPB) &&& CSTOPB = 0 :=
      read_and_cleared _ _ _ (by decide)
    simp [stop_bits, set_stop_bits, h]
  | Stop2 =>
    have h : (s.termios.c_cflag ||| CSTOPB) &&& CSTOPB ≠ 0 :=
      read_or_ne_zero _ _ _ (by decide)
    simp [stop_bits, set_stop_bits, h]

theorem flow_control_roundtrip (s : TTYSettings) (v : FlowControl) :
    flow_control (set_flow_control s v) = some v := by
  cases v with
  | FlowNone =>
    have h1 : (s.termios.c_cflag &&& complement32 CRTSCTS) &&& CRTSCTS = 0 :=
      read_and_cleared _ _ _ (by decide)
    have h2 : (s.termios.c_iflag &&& complement32 (IXON ||| IXOFF)) &&& (IXON ||| IXOFF) = 0 :=
      read_and_cleared _ _ _ (by decide)
    simp [flow_control, set_flow_control, h1, h2]
  | FlowSoftware =>
    have h1 : (s.termios.c_cflag &&& complement32 CRTSCTS) &&& CRTSCTS = 0 :=
      read_and_cleared _ _ _ (by decide)
    have h2 : (s.termios.c_iflag ||| (IXON ||| IXOFF)) &&& (IXON ||| IXOFF) ≠ 0 :=
      read_or_ne_zero _ _ _ (by decide)
    simp [flow_control, set_flow_control, h1, h2]
  | FlowHardware =>
    have h1 : (s.termios.c_cflag ||| CRTSCTS) &&& CRTSCTS ≠ 0 :=
      read_or_ne_zero _ _ _ (by decide)
    simp [flow_control, set_flow_control, h1]

theorem char_size_set_parity (s : TTYSettings) (v : Parity) :
    char_size (set_parity s v) = char_size s := by
  cases v <;>
    (apply char_size_congr
     first
       | exact read_and_kept _ _ _ (by decide)
       | exact read_or_kept _ _ _ (by decide)
       | exact read_and_or_kept _ _ _ _ (by decide) (by decide))

theorem char_size_set_stop_bits (s : TTYSettings) (v : StopBits) :
    char_size (set_stop_bits s v) = char_size s := by
  cases v <;>
    (apply char_size_congr
     first
       | exact read_and_kept _ _ _ (by decide)
       | exact read_or_kept _ _ _ (by decide))

theorem char_size_set_flow_control (s : TTYSettings) (v : FlowControl) :
    char_size (set_flow_control s v) = char_size s := by
  cases v <;>
    (apply char_size_congr
     first
       | exact read_and_kept _ _ _ (by decide)
       | exact read_or_kept _ _ _ (by decide))

theorem parity_set_char_size (s : TTYSettings) (v : CharSize) :
    parity (set_char_size s v) = parity s := by
  cases v <;>
    (apply parity_congr <;>
      exact read_and_or_kept _ _ _ _ (by decide) (by decide))

theorem parity_set_stop_bits (s : TTYSettings) (v : StopBits) :
    parity (set_stop_bits s v) = parity s := by
  cases v <;>
    (apply parity_congr <;>
      first
        | exact read_and_kept _ _ _ (by decide)
        | exact read_or_kept _ _ _ (by decide))

theorem parity_set_flow_control (s : TTYSettings) (v : FlowControl) :
    parity (set_flow_control s v) = parity s := by
  cases v <;>
    (apply parity_congr <;>
      first
        | exact read_and_kept _ _ _ (by decide)
        | exact read_or_kept _ _ _ (by decide))

theorem stop_bits_set_char_size (s : TTYSettings) (v : CharSize) :
    stop_bits (set_char_size s v) = stop_bits s := by
  cases v <;>
    (apply stop_bits_congr
     exact read_and_or_kept _ _ _ _ (by decide) (by decide))

theorem stop_bits_set_parity (s : TTYSettings) (v : Parity) :
    stop_bits (set_parity s v) = stop_bits s := by
  cases v <;>
    (apply stop_bits_congr
     first
       | exact read_and_kept _ _ _ (by decide)
       | exact read_or_kept _ _ _ (by decide)
       | exact read_and_or_kept _ _ _ _ (by decide) (by decide))

theorem stop_bits_set_flow_control (s : TTYSettings) (v : FlowControl) :
    stop_bits (set_flow_control s v) = stop_bits s := by
  cases v <;>
    (apply stop_bits_congr
     first
       | exact read_and_kept _ _ _ (by decide)
       | exact read_or_kept _ _ _ (by decide))

theorem flow_control_set_char_size (s : TTYSettings) (v : CharSize) :
    flow_control (set_char_size s v) = flow_control s := by
  cases v <;>
    (apply flow_control_congr
     · exact read_and_or_kept _ _ _ _ (by decide) (by decide)
     · rfl)

theorem flow_control_set_parity (s : TTYSettings) (v : Parity) :
    flow_control (set_parity s v) = flow_control s := by
  cases v <;>
    (apply flow_control_congr <;>
      first
        | exact read_and_kept _ _ _ (by decide)
        | exact read_or_kept _ _ _ (by decide)
        | exact read_and_or_kept _ _ _ _ (by decide) (by decide)
        | exact read_or_and_kept _ _ _ _ (by decide) (by decide))

theorem flow_control_set_stop_bits (s : TTYSettings) (v : StopBits) :
    flow_control (set_stop_bits s v) = flow_control s := by
  cases v <;>
    (apply flow_control_congr
     · first
         | exact read_and_kept _ _ _ (by decide)
         | exact read_or_kept _ _ _ (by decide)
     · rfl)

theorem char_size_set_baud_rate (s : TTYSettings) (br : BaudRate) (s' : TTYSettings)
    (h : set_baud_rate s br = Except.ok s') : char_size s' = char_size s := by
  obtain ⟨c, hc, hcf, -, -⟩ := set_baud_rate_shape s br s' h
  apply char_size_congr
  rw [hcf]
  exact read_and_or_kept _ _ _ _ (by decide) (cbaud_code_masked_zero c _ hc (by decide))

theorem parity_set_baud_rate (s : TTYSettings) (br : BaudRate) (s' : TTYSettings)
    (h : set_baud_rate s br = Except.ok s') : parity s' = parity s := by
  obtain ⟨c, hc, hcf, -, -⟩ := set_baud_rate_shape s br s' h
  apply parity_congr <;>
    (rw [hcf]
     exact read_and_or_kept _ _ _ _ (by decide) (cbaud_code_masked_zero c _ hc (by decide)))

theorem stop_bits_set_baud_rate (s : TTYSettings) (br : BaudRate) (s' : TTYSettings)
    (h : set_baud_rate s br = Except.ok s') : stop_bits s' = stop_bits s := by
  obtain ⟨c, hc, hcf, -, -⟩ := set_baud_rate_shape s br s' h
  apply stop_bits_congr
  rw [hcf]
  exact read_and_or_kept _ _ _ _ (by decide) (cbaud_code_masked_zero c _ hc (by decide))

theorem flow_control_set_baud_rate (s : TTYSettings) (br : BaudRate) (s' : TTYSettings)
    (h : set_baud_rate s br = Except.ok s') : flow_control s' = flow_control s := by
  obtain ⟨c, hc, hcf, hif, -⟩ := set_baud_rate_shape s br s' h
  apply flow_control_congr
  · rw [hcf]
    exact read_and_or_kept _ _ _ _ (by decide) (cbaud_code_masked_zero c _ hc (by decide))
  · rw [hif]

theorem baud_rate_set_char_size (s : TTYSettings) (v : CharSize) :
    baud_rate (set_char_size s v) = baud_rate s :=
  baud_rate_congr _ _ (get_speed_set_char_size s v)

theorem baud_rate_set_parity (s : TTYSettings) (v : Parity) :
    baud_rate (set_parity s v) = baud_rate s :=
  baud_rate_congr _ _ (get_speed_set_parity s v)

theorem baud_rate_set_stop_bits (s : TTYSettings) (v : StopBits) :
    baud_rate (set_stop_bits s v) = baud_rate s :=
  baud_rate_congr _ _ (get_speed_set_stop_bits s v)

theorem baud_rate_set_flow_control (s : TTYSettings) (v : FlowControl) :
    baud_rate (set_flow_control s v) = baud_rate s :=
  baud_rate_congr _ _ (get_speed_set_flow_control s v)

/-- C5: Per-field round trip and pairwise non-interference: for each
of `CharSize`, `Parity`, `StopBits` and `FlowControl`, setting the field
and reading it back yields `some` of the set value over every snapshot;
and for every ordered pair of distinct fields among the five settings
fields, applying one field's setter leaves the other field's getter
result unchanged (the setters touch disjoint bits of the control
block). -/
theorem settings_field_roundtrip_frame :
    (∀ s br s', set_baud_rate s br = Except.ok s' → char_size s' = char_size s) ∧
    (∀ s br s', set_baud_rate s br = Except.ok s' → parity s' = parity s) ∧
    (∀ s br s', set_baud_rate s br = Except.ok s' → stop_bits s' = stop_bits s) ∧
    (∀ s br s', set_baud_rate s br = Except.ok s' → flow_control s' = flow_control s) ∧
    (∀ s v, char_size (set_char_size s v) = some v) ∧
    (∀ s v, parity (set_parity s v) = some v) ∧
    (∀ s v, stop_bits (set_stop_bits s v) = some v) ∧
    (∀ s v, flow_control (set_flow_control s v) = some v) ∧
    (∀ s v, parity (set_char_size s v) = parity s) ∧
    (∀ s v, stop_bits (set_char_size s v) = stop_bits s) ∧
    (∀ s v, flow_control (set_char_size s v) = flow_control s) ∧
    (∀ s v, baud_rate (set_char_size s v) = baud_rate s) ∧
    (∀ s v, char_size (set_parity s v) = char_size s) ∧
    (∀ s v, stop_bits (set_parity s v) = stop_bits s) ∧
    (∀ s v, flow_control (set_parity s v) = flow_control s) ∧
    (∀ s v, baud_rate (set_parity s v) = baud_rate s) ∧
    (∀ s v, char_size (set_stop_bits s v) = char_size s) ∧
    (∀ s v, parity (set_stop_bits s v) = parity s) ∧
    (∀ s v, flow_control (set_stop_bits s v) = flow_control s) ∧
    (∀ s v, baud_rate (set_stop_bits s v) = baud_rate s) ∧
    (∀ s v, char_size (set_flow_control s v) = char_size s) ∧
    (∀ s v, parity (set_flow_control s v) = parity s) ∧
    (∀ s v, stop_bits (set_flow_control s v) = stop_bits s) ∧
    (∀ s v, baud_rate (set_flow_control s v) = baud_rate s) :=
  ⟨char_size_set_baud_rate, parity_set_baud_rate, stop_bits_set_baud_rate,
   flow_control_set_baud_rate, char_size_roundtrip, parity_roundtrip,
   stop_bits_roundtrip, flow_control_roundtrip,
   parity_set_char_size, stop_bits_set_char_size, flow_control_set_char_size,
   baud_rate_set_char_size,
   char_size_set_parity, stop_bits_set_parity, flow_control_set_parity,
   baud_rate_set_parity,
   char_size_set_stop_bits, parity_set_stop_bits, flow_control_set_stop_bits,
   baud_rate_set_stop_bits,
   char_size_set_flow_control, parity_set_flow_control, stop_bits_set_flow_control,
   baud_rate_set_flow_control⟩

/-- Witness for C5: a concrete `set_baud_rate` application leaving
`char_size` unchanged. -/
theorem settings_field_roundtrip_frame_witness :
    set_baud_rate zeroSettings (BaudRate.BaudOther 12345) = Except.ok custom12345 ∧
    char_size custom12345 = char_size zeroSettings :=
  ⟨by decide,
   settings_field_roundtrip_frame.1 zeroSettings (BaudRate.BaudOther 12345)
     custom12345 (by decide)⟩

/-! Section: C6 and C10: readiness-wait classification -/

/-- C6: `wait_fd` outcome classification: `Io(Interrupted)` when the
poll call fails with `EINTR` and `Io(Other)` on any other failing errno;
`TimedOut` on zero ready events; success when the returned events
include the requested interest bit; `BrokenPipe` when hangup or
invalid-handle is reported without the requested interest; `Io(Other)`
for any other readiness combination. -/
theorem wait_fd_classification :
    (∀ ev w e r, w < 0 → e = EINTR →
      wait_fd ev w e r = Except.error IoKind.Interrupted) ∧
    (∀ ev w e r, w < 0 → e ≠ EINTR →
      wait_fd ev w e r = Except.error IoKind.Other) ∧
    (∀ ev e r, wait_fd ev 0 e r = Except.error IoKind.TimedOut) ∧
    (∀ ev w e r, 0 < w → r &&& ev ≠ 0 → wait_fd ev w e r = Except.ok ()) ∧
    (∀ ev w e r, 0 < w → r &&& ev = 0 → r &&& (POLLHUP ||| POLLNVAL) ≠ 0 →
      wait_fd ev w e r = Except.error IoKind.BrokenPipe) ∧
    (∀ ev w e r, 0 < w → r &&& ev = 0 → r &&& (POLLHUP ||| POLLNVAL) = 0 →
      wait_fd ev w e r = Except.error IoKind.Other) := by
  refine ⟨?_, ?_, ?_, ?_, ?_, ?_⟩
  · intro ev w e r hw he
    simp [wait_fd, hw, he]
  · intro ev w e r hw he
    simp [wait_fd, hw, he]
  · intro ev e r
    simp [wait_fd]
  · intro ev w e r hw hr
    have h1 : ¬(w < 0) := by omega
    have h2 : w ≠ 0 := by omega
    simp [wait_fd, h1, h2, hr]
  · intro ev w e r hw hr hh
    have h1 : ¬(w < 0) := by omega
    have h2 : w ≠ 0 := by omega
    simp [wait_fd, h1, h2, hr, hh]
  · intro ev w e r hw hr hh
    have h1 : ¬(w < 0) := by omega
    have h2 : w ≠ 0 := by omega
    simp [wait_fd, h1, h2, hr, hh]

/-- Witness for C6: an `EINTR`-failed poll and a ready poll. -/
theorem wait_fd_classification_witness :
    ((-1 : Int) < 0 ∧ (4 : Int) = EINTR ∧
      wait_fd POLLIN (-1) 4 0 = Except.error IoKind.Interrupted) ∧
    ((0 : Int) < 1 ∧ (1 : Nat) &&& POLLIN ≠ 0 ∧
      wait_fd POLLIN 1 0 1 = Except.ok ()) :=
  ⟨⟨by decide, by decide,
    wait_fd_classification.1 POLLIN (-1) 4 0 (by decide) (by decide)⟩,
   ⟨by decide, by decide,
    wait_fd_classification.2.2.2.1 POLLIN 1 0 1 (by decide) (by decide)⟩⟩

/-- C10: The requested-interest check precedes the hangup check: a
poll result that includes the requested interest bit yields success even
when `POLLHUP` or `POLLNVAL` is simultaneously set, and `BrokenPipe` is
only ever returned when the interest bit is absent from the returned
events. -/
theorem wait_fd_interest_precedence :
    (∀ ev w e r, 0 < w → r &&& ev ≠ 0 → r &&& (POLLHUP ||| POLLNVAL) ≠ 0 →
      wait_fd ev w e r = Except.ok ()) ∧
    (∀ ev w e r, wait_fd ev w e r = Except.error IoKind.BrokenPipe →
      r &&& ev = 0) := by
  constructor
  · intro ev w e r hw hr _
    have h1 : ¬(w < 0) := by omega
    have h2 : w ≠ 0 := by omega
    simp [wait_fd, h1, h2, hr]
  · intro ev w e r h
    by_cases h1 : w < 0
    · simp [wait_fd, h1] at h
      split_ifs at h
    · by_cases h2 : w = 0
      · simp [wait_fd, h1, h2] at h
      · by_cases h3 : r &&& ev = 0
        · exact h3
        · simp [wait_fd, h1, h2, h3] at h

/-- Witness for C10: readable and hung-up simultaneously still succeeds. -/
theorem wait_fd_interest_precedence_witness :
    (0 : Int) < 1 ∧ (17 : Nat) &&& POLLIN ≠ 0 ∧
    (17 : Nat) &&& (POLLHUP ||| POLLNVAL) ≠ 0 ∧
    wait_fd POLLIN 1 0 17 = Except.ok () :=
  ⟨by decide, by decide, by decide,
   wait_fd_interest_precedence.1 POLLIN 1 0 17 (by decide) (by decide) (by decide)⟩

/-! Section: C7: error-mapper classification -/

/-- C7: `from_raw_os_error` yields `NoDevice` for the eight
busy/missing/directory/dangling-link/not-a-character-device/access
codes, `InvalidInput` for `EINVAL` and `ENAMETOOLONG`,
`Io(Interrupted)` for `EINTR`, `Io(WouldBlock)` for `EWOULDBLOCK`, and
`Io(Other)` for every other code. -/
theorem from_raw_os_error_classification :
    (∀ e : Int, (e = EBUSY ∨ e = EISDIR ∨ e = ELOOP ∨ e = ENOTDIR ∨ e = ENOENT ∨
        e = ENODEV ∨ e = ENXIO ∨ e = EACCES) →
      from_raw_os_error e = ErrorKind.NoDevice) ∧
    (∀ e : Int, (e = EINVAL ∨ e = ENAMETOOLONG) →
      from_raw_os_error e = ErrorKind.InvalidInput) ∧
    from_raw_os_error EINTR = ErrorKind.Io IoKind.Interrupted ∧
    from_raw_os_error EWOULDBLOCK = ErrorKind.Io IoKind.WouldBlock ∧
    (∀ e : Int, ¬(e = EBUSY ∨ e = EISDIR ∨ e = ELOOP ∨ e = ENOTDIR ∨ e = ENOENT ∨
        e = ENODEV ∨ e = ENXIO ∨ e = EACCES ∨ e = EINVAL ∨ e = ENAMETOOLONG ∨
        e = EINTR ∨ e = EWOULDBLOCK) →
      from_raw_os_error e = ErrorKind.Io IoKind.Other) := by
  refine ⟨?_, ?_, by decide, by decide, ?_⟩
  · intro e he
    simp only [from_raw_os_error]
    rw [if_pos he]
  · intro e he
    have hnd : ¬(e = EBUSY ∨ e = EISDIR ∨ e = ELOOP ∨ e = ENOTDIR ∨ e = ENOENT ∨
        e = ENODEV ∨ e = ENXIO ∨ e = EACCES) := by
      rcases he with rfl | rfl <;> decide
    simp only [from_raw_os_error]
    rw [if_neg hnd, if_pos he]
  · intro e he
    push_neg at he
    obtain ⟨h1, h2, h3, h4, h5, h6, h7, h8, h9, h10, h11, h12⟩ := he
    simp [from_raw_os_error, h1, h2, h3, h4, h5, h6, h7, h8, h9, h10, h11, h12]

/-- Witness for C7: `EBUSY` maps to `NoDevice`, 999 to `Io(Other)`. -/
theorem from_raw_os_error_classification_witness :
    from_raw_os_error 16 = ErrorKind.NoDevice ∧
    from_raw_os_error 999 = ErrorKind.Io IoKind.Other :=
  ⟨from_raw_os_error_classification.1 16 (Or.inl rfl),
   from_raw_os_error_classification.2.2.2.2 999 (by decide)⟩

/-! Section: C8: open failure atomicity -/

/-- C8: If any step of `TTYPort::open` after the device handle is
created fails (exclusive-access ioctl, clearing the non-blocking flag,
reading attributes, or either half of writing attributes back), `open`
returns that step's mapped error and the handle has been closed before
`open` returns, leaving no resource held. -/
theorem tty_open_failure_atomicity :
    (∀ env e, env.pathValid = true → env.openErrno = none →
      env.exclErrno = some e →
      tty_open env = (Except.error (from_raw_os_error e), false)) ∧
    (∀ env e, env.pathValid = true → env.openErrno = none →
      env.exclErrno = none → env.fcntlErrno = some e →
      tty_open env = (Except.error (from_raw_os_error e), false)) ∧
    (∀ env e, env.pathValid = true → env.openErrno = none →
      env.exclErrno = none → env.fcntlErrno = none → env.tcgetsErrno = some e →
      tty_open env = (Except.error (from_raw_os_error e), false)) ∧
    (∀ env e, env.pathValid = true → env.openErrno = none →
      env.exclErrno = none → env.fcntlErrno = none → env.tcgetsErrno = none →
      env.tcsetsErrno = some e →
      tty_open env = (Except.error (from_raw_os_error e), false)) ∧
    (∀ env e, env.pathValid = true → env.openErrno = none →
      env.exclErrno = none → env.fcntlErrno = none → env.tcgetsErrno = none →
      env.tcsetsErrno = none → env.tcflushErrno = some e →
      tty_open env = (Except.error (from_raw_os_error e), false)) := by
  refine ⟨?_, ?_, ?_, ?_, ?_⟩
  · intro env e hp h1 h2
    simp [tty_open, hp, h1, h2]
  · intro env e hp h1 h2 h3
    simp [tty_open, hp, h1, h2, h3]
  · intro env e hp h1 h2 h3 h4
    simp [tty_open, hp, h1, h2, h3, h4]
  · intro env e hp h1 h2 h3 h4 h5
    simp [tty_open, hp, h1, h2, h3, h4, h5]
  · intro env e hp h1 h2 h3 h4 h5 h6
    simp [tty_open, hp, h1, h2, h3, h4, h5, h6]

/-- Witness for C8: a failing exclusive-access ioctl (`EBUSY`) closes
the handle and surfaces the mapped error. -/
theorem tty_open_failure_atomicity_witness :
    envExclFail.pathValid = true ∧ envExclFail.openErrno = none ∧
    envExclFail.exclErrno = some 16 ∧
    tty_open envExclFail = (Except.error (from_raw_os_error 16), false) :=
  ⟨rfl, rfl, rfl, tty_open_failure_atomicity.1 envExclFail 16 rfl rfl rfl⟩

end Serial
